import Mathlib

/-!
Shallow embedding of the hospital management system's storage operations
(`db_operator.py`) and the CLI workflows that drive them (`main_cli.py`).

A database table is a list of rows; `db.query(T).filter(...).first()` becomes
`List.find?`, and the SQLAlchemy pattern of mutating the fetched ORM row and
committing becomes replacing the first matching row of the list.  Timestamps
(`datetime`) are modelled as natural numbers; `datetime.now()` becomes an
explicit `now` parameter.  Pydantic payload schemas (`schemas.py`) become
structures whose fields mirror the schema fields, with `Optional[...]`
rendered as `Option`.
-/

namespace Hospital

/-- Timestamps: `datetime` values are modelled as abstract ticks. -/
abbrev Timestamp := Nat

/-- Row of the `Doctors` table (`models.py`, class `Doctor`). -/
structure Doctor where
  Doc_ID : Nat
  Doc_Name : String
  Speciality : String
  Phone_Num : Option String
  Email : String
deriving Repr, DecidableEq

/-- Row of the `Patients` table (`models.py`, class `Patient`). -/
structure Patient where
  Patient_ID : Nat
  Patient_Name : String
  Patient_Records : String
  Phone_Num : Option String
  Email : String
  Doc_ID : Option Nat
  Staff_ID : Option Nat
deriving Repr, DecidableEq

/-- Row of the `Beds` table (`models.py`, class `Bed`). -/
structure Bed where
  Bed_ID : Nat
  Ward_ID : Nat
  Patient_ID : Option Nat
  Status : String
  Assigned_Date : Option Timestamp
deriving Repr, DecidableEq

/-- Row of the `Appointments` table (`models.py`, class `Appointment`). -/
structure Appointment where
  Appointment_ID : Nat
  Patient_ID : Option Nat
  Doc_ID : Nat
  Appointment_Date : Timestamp
  Statusof : Option Nat
  Typeof : Option String
  Speciality : String
  Notes : Option String
deriving Repr, DecidableEq

/-- Row of the `StaffShifts` table (`models.py`, class `StaffShift`). -/
structure StaffShift where
  Shift_ID : Nat
  Staff_ID : Nat
  Shift_Start : Timestamp
  Shift_End : Timestamp
deriving Repr, DecidableEq

/-- Row of the `Notifications` table (`models.py`, class `Notification`). -/
structure Notification where
  Notification_ID : Nat
  Recipient_Type : String
  Recipient_ID : Nat
  Message : String
  Status : String
  Created_At : Timestamp
  Read_At : Option Timestamp
deriving Repr, DecidableEq

/-- Row of the `Prescriptions` table (`models.py`, class `Prescription`). -/
structure Prescription where
  Prescription_ID : Nat
  Patient_ID : Nat
  Doctor_ID : Nat
  Date_Issued : Timestamp
  Notes : Option String
deriving Repr, DecidableEq

/-- Row of the `Prescription_Details` table (`models.py`, class `PrescriptionDetail`). -/
structure PrescriptionDetail where
  Detail_ID : Nat
  Prescription_ID : Nat
  Medication_Name : String
  Dosage : String
  Frequency : String
  Duration : String
deriving Repr, DecidableEq

/-- Payload schema `DoctorBase` / `DoctorCreate` (`schemas.py`). -/
structure DoctorBase where
  Doc_Name : String
  Speciality : String
  Phone_Num : Option String
  Email : String
deriving Repr, DecidableEq

/-- Payload schema `BedBase` / `BedCreate` (`schemas.py`). -/
structure BedBase where
  Bed_ID : Nat
  Ward_ID : Nat
  Patient_ID : Option Nat
  Status : String
  Assigned_Date : Option Timestamp
deriving Repr, DecidableEq

/-- Payload schema `AppointmentBase` (`schemas.py`). -/
structure AppointmentBase where
  Patient_ID : Option Nat
  Doc_ID : Nat
  Appointment_Date : Timestamp
  Statusof : Option Nat
  Typeof : Option String
  Speciality : String
  Notes : Option String
deriving Repr, DecidableEq

/-- Payload schema `StaffShiftBase` / `StaffShiftCreate` (`schemas.py`). -/
structure StaffShiftBase where
  Staff_ID : Nat
  Shift_Start : Timestamp
  Shift_End : Timestamp
deriving Repr, DecidableEq

/-- Payload schema `NotificationCreate` (`schemas.py`). -/
structure NotificationCreate where
  Recipient_Type : String
  Recipient_ID : Nat
  Message : String
deriving Repr, DecidableEq

/-- Replace the first row satisfying `p` (the row fetched by
`.filter(...).first()` and then mutated and committed) by `b`. -/
def replaceFirst (p : α → Bool) (b : α) : List α → List α
  | [] => []
  | x :: xs => if p x then b :: xs else x :: replaceFirst p b xs

namespace DbOperator

/-- `db_operator.get_doctor`: first row of `Doctors` with the given `Doc_ID`. -/
def get_doctor (doctors : List Doctor) (doctor_id : Nat) : Option Doctor :=
  doctors.find? (fun d => d.Doc_ID == doctor_id)

/-- `db_operator.get_patient`: first row of `Patients` with the given `Patient_ID`. -/
def get_patient (patients : List Patient) (patient_id : Nat) : Option Patient :=
  patients.find? (fun p => p.Patient_ID == patient_id)

/-- `db_operator.get_bed`: first row of `Beds` with the given `Bed_ID`. -/
def get_bed (beds : List Bed) (bed_id : Nat) : Option Bed :=
  beds.find? (fun b => b.Bed_ID == bed_id)

/-- The row produced by `db_operator.update_bed`'s `setattr` loop: every
`BedBase` field of the payload is written onto the fetched row (the payload
carries all of the row's columns, `Bed_ID` included). -/
def setBedFields (p : BedBase) : Bed :=
  ⟨p.Bed_ID, p.Ward_ID, p.Patient_ID, p.Status, p.Assigned_Date⟩

/-- `db_operator.update_bed`: fetch the bed; if present, overwrite each field
from the payload and commit; if absent, return `None` and leave the table
untouched. -/
def update_bed (beds : List Bed) (bed_id : Nat) (p : BedBase) : List Bed × Option Bed :=
  match get_bed beds bed_id with
  | none => (beds, none)
  | some _ =>
    let b2 := setBedFields p
    (replaceFirst (fun b => b.Bed_ID == bed_id) b2 beds, some b2)

end DbOperator

namespace MainCli

/-- `main_cli.assigne_bed`: fetch the bed, read a patient id, and write
`Occupied` / the patient id / the current time through `update_bed`.
The source performs no check that the bed is Available and no check that the
patient exists.  A missing bed raises `AttributeError` before any write, so
the table is modelled as unchanged in that case. -/
def assigne_bed (beds : List Bed) (bed_id patient_id : Nat) (now : Timestamp) : List Bed :=
  match DbOperator.get_bed beds bed_id with
  | none => beds
  | some bed =>
    (DbOperator.update_bed beds bed_id
      ⟨bed.Bed_ID, bed.Ward_ID, some patient_id, "Occupied", some now⟩).1

/-- `main_cli.release_bed`: fetch the bed and unconditionally write
`Available` / null / null through `update_bed`.  A missing bed raises before
any write. -/
def release_bed (beds : List Bed) (bed_id : Nat) : List Bed :=
  match DbOperator.get_bed beds bed_id with
  | none => beds
  | some bed =>
    (DbOperator.update_bed beds bed_id
      ⟨bed.Bed_ID, bed.Ward_ID, none, "Available", none⟩).1

end MainCli

/-- One CLI bed operation: `assigne_bed` or `release_bed`. -/
inductive BedOp where
  | assign (bed_id patient_id : Nat) (now : Timestamp)
  | release (bed_id : Nat)
deriving Repr, DecidableEq

/-- Apply one bed operation to the `Beds` table. -/
def applyBedOp (beds : List Bed) : BedOp → List Bed
  | BedOp.assign bed_id patient_id now => MainCli.assigne_bed beds bed_id patient_id now
  | BedOp.release bed_id => MainCli.release_bed beds bed_id

/-- Apply a sequence of bed operations to the `Beds` table. -/
def applyBedOps (beds : List Bed) (ops : List BedOp) : List Bed :=
  ops.foldl applyBedOp beds

/-- The bed state-machine invariant of the specification:
`Occupied` iff patient id and assigned date are set, `Available` iff both are null. -/
def BedInv (b : Bed) : Prop :=
  (b.Status = "Occupied" ↔ b.Patient_ID ≠ none ∧ b.Assigned_Date ≠ none) ∧
  (b.Status = "Available" ↔ b.Patient_ID = none ∧ b.Assigned_Date = none)

instance (b : Bed) : Decidable (BedInv b) := by
  unfold BedInv; infer_instance

namespace DbOperator

/-- `db_operator.update_doctor`: fetch the doctor; if present, overwrite every
`DoctorCreate` field (the primary key `Doc_ID` is not in the payload and is
kept); if absent, return `None` and leave the table untouched. -/
def update_doctor (doctors : List Doctor) (doctor_id : Nat) (p : DoctorBase) :
    List Doctor × Option Doctor :=
  match get_doctor doctors doctor_id with
  | none => (doctors, none)
  | some d =>
    let d2 : Doctor := ⟨d.Doc_ID, p.Doc_Name, p.Speciality, p.Phone_Num, p.Email⟩
    (replaceFirst (fun x => x.Doc_ID == doctor_id) d2 doctors, some d2)

/-- `db_operator.get_appointment`. -/
def get_appointment (appointments : List Appointment) (appointment_id : Nat) :
    Option Appointment :=
  appointments.find? (fun a => a.Appointment_ID == appointment_id)

/-- The autoincrement primary key of the `Appointments` table. -/
def nextAppointmentId (appointments : List Appointment) : Nat :=
  (appointments.foldl (fun m a => Nat.max m a.Appointment_ID) 0) + 1

/-- `db_operator.create_appointment`: insert a row built from the payload,
with a fresh autoincrement id, and return it. -/
def create_appointment (appointments : List Appointment) (p : AppointmentBase) :
    List Appointment × Appointment :=
  let a : Appointment := ⟨nextAppointmentId appointments, p.Patient_ID, p.Doc_ID,
    p.Appointment_Date, p.Statusof, p.Typeof, p.Speciality, p.Notes⟩
  (appointments ++ [a], a)

/-- `db_operator.update_appointment`: fetch the appointment; if present,
overwrite every `AppointmentBase` field (the primary key is kept); if absent,
return `None` and leave the table untouched. -/
def update_appointment (appointments : List Appointment) (appointment_id : Nat)
    (p : AppointmentBase) : List Appointment × Option Appointment :=
  match get_appointment appointments appointment_id with
  | none => (appointments, none)
  | some a =>
    let a2 : Appointment := ⟨a.Appointment_ID, p.Patient_ID, p.Doc_ID,
      p.Appointment_Date, p.Statusof, p.Typeof, p.Speciality, p.Notes⟩
    (replaceFirst (fun x => x.Appointment_ID == appointment_id) a2 appointments, some a2)

/-- `db_operator.get_staff_shift`. -/
def get_staff_shift (shifts : List StaffShift) (shift_id : Nat) : Option StaffShift :=
  shifts.find? (fun s => s.Shift_ID == shift_id)

/-- `db_operator.update_staff_shift`: overwrite every `StaffShiftCreate`
field of the fetched row, keeping the primary key; `None` when absent. -/
def update_staff_shift (shifts : List StaffShift) (shift_id : Nat)
    (p : StaffShiftBase) : List StaffShift × Option StaffShift :=
  match get_staff_shift shifts shift_id with
  | none => (shifts, none)
  | some s =>
    let s2 : StaffShift := ⟨s.Shift_ID, p.Staff_ID, p.Shift_Start, p.Shift_End⟩
    (replaceFirst (fun x => x.Shift_ID == shift_id) s2 shifts, some s2)

/-- The autoincrement primary key of the `Notifications` table. -/
def nextNotificationId (notifications : List Notification) : Nat :=
  (notifications.foldl (fun m n => Nat.max m n.Notification_ID) 0) + 1

/-- `db_operator.create_notification`: insert a row with `Status` forced to
`Unread`, `Created_At` the current time and `Read_At` left null. -/
def create_notification (notifications : List Notification) (p : NotificationCreate)
    (now : Timestamp) : List Notification × Notification :=
  let n : Notification := ⟨nextNotificationId notifications, p.Recipient_Type,
    p.Recipient_ID, p.Message, "Unread", now, none⟩
  (notifications ++ [n], n)

/-- The by-id query inside `db_operator.mark_notification_as_read`. -/
def findNotification (notifications : List Notification) (notification_id : Nat) :
    Option Notification :=
  notifications.find? (fun n => n.Notification_ID == notification_id)

/-- `db_operator.mark_notification_as_read`: if the notification exists, set
`Status` to `Read` and `Read_At` to the current time, unconditionally. -/
def mark_notification_as_read (notifications : List Notification)
    (notification_id : Nat) (now : Timestamp) : List Notification × Option Notification :=
  match findNotification notifications notification_id with
  | none => (notifications, none)
  | some n =>
    let n2 : Notification := { n with Status := "Read", Read_At := some now }
    (replaceFirst (fun x => x.Notification_ID == notification_id) n2 notifications, some n2)

end DbOperator

namespace MainCli

/-- The CLI idiom `x = prior if inp == '' else inp`: a blank input keeps the
record's prior value. -/
def pickStr (inp prior : String) : String :=
  if inp = "" then prior else inp

/-- Blank-keeps-prior for a column that is nullable in the record: a
non-blank input becomes `some inp`. -/
def pickOptStr (inp : String) (prior : Option String) : Option String :=
  if inp = "" then prior else some inp

/-- Blank-keeps-prior for inputs modelled in parsed form: `none` stands for a
blank input, `some v` for an entered value. -/
def pick (inp : Option α) (prior : α) : α :=
  inp.getD prior

/-- Blank-keeps-prior where the record's column is itself nullable. -/
def pickOpt (inp prior : Option α) : Option α :=
  match inp with
  | some v => some v
  | none => prior

/-- `main_cli.update_doctor`: fetch the doctor, read the four fields with
blank-keeps-prior, and write all of them through the store's
`update_doctor`.  A missing doctor id raises before any write. -/
def update_doctor (doctors : List Doctor) (doctor_id : Nat)
    (nameInp phoneInp specialityInp emailInp : String) : List Doctor × Option Doctor :=
  match DbOperator.get_doctor doctors doctor_id with
  | none => (doctors, none)
  | some doctor =>
    DbOperator.update_doctor doctors doctor_id
      ⟨pickStr nameInp doctor.Doc_Name, pickStr specialityInp doctor.Speciality,
       pickOptStr phoneInp doctor.Phone_Num, pickStr emailInp doctor.Email⟩

/-- `main_cli.update_staff_shift`: fetch the shift, read the three fields
with blank-keeps-prior, and write all of them through the store's
`update_staff_shift`. -/
def update_staff_shift (shifts : List StaffShift) (shift_id : Nat)
    (staffIdInp : Option Nat) (startInp endInp : Option Timestamp) :
    List StaffShift × Option StaffShift :=
  match DbOperator.get_staff_shift shifts shift_id with
  | none => (shifts, none)
  | some shift =>
    DbOperator.update_staff_shift shifts shift_id
      ⟨pick staffIdInp shift.Staff_ID, pick startInp shift.Shift_Start,
       pick endInp shift.Shift_End⟩

/-- `main_cli.create_open_appointment`: re-prompts until the doctor exists
(modelled by the `none` branch), copies the doctor's `Speciality`, hardcodes
`Statusof` to `0` (Open) and omits `Patient_ID` (defaulting to null), then
inserts through `create_appointment`. -/
def create_open_appointment (doctors : List Doctor) (appointments : List Appointment)
    (doc_id : Nat) (appo_date : Timestamp) : List Appointment × Option Appointment :=
  match DbOperator.get_doctor doctors doc_id with
  | none => (appointments, none)
  | some doctor =>
    let r := DbOperator.create_appointment appointments
      ⟨none, doc_id, appo_date, some 0, none, doctor.Speciality, none⟩
    (r.1, some r.2)

/-- `main_cli.update_appointment`: fetch the appointment; doctor id, patient
id, date and note use blank-keeps-prior; status (0-4) and type are always
entered (their input loops accept no blank); `Speciality` is taken from the
existing row, never from a doctor lookup. -/
def update_appointment (appointments : List Appointment) (appointment_id : Nat)
    (docIdInp patientIdInp : Option Nat) (dateInp : Option Timestamp)
    (status : Nat) (typeof : String) (noteInp : Option String) :
    List Appointment × Option Appointment :=
  match DbOperator.get_appointment appointments appointment_id with
  | none => (appointments, none)
  | some appointment =>
    DbOperator.update_appointment appointments appointment_id
      ⟨pickOpt patientIdInp appointment.Patient_ID,
       pick docIdInp appointment.Doc_ID,
       pick dateInp appointment.Appointment_Date,
       some status, some typeof,
       appointment.Speciality,
       pickOpt noteInp appointment.Notes⟩

end MainCli

/-- A Python attribute value, for rows modelled as attribute maps. -/
inductive Value where
  | natV (n : Nat)
  | strV (s : String)
  | noneV
deriving Repr, DecidableEq

/-- A Python object modelled as an attribute map, used for `Staff` rows:
the CLI patient update pushes a `PatientBase` payload through
`update_staff`, whose `setattr` loop writes patient-schema keys onto the
staff object, so a fixed column structure cannot express the result. -/
abbrev Obj := List (String × Value)

/-- Attribute read on an attribute-map object. -/
def getattr (o : Obj) (k : String) : Option Value :=
  (o.find? (fun kv => kv.1 == k)).map Prod.snd

/-- Python `setattr`: overwrite the attribute if present, add it otherwise. -/
def setattr : Obj → String → Value → Obj
  | [], k, v => [(k, v)]
  | kv :: rest, k, v => if kv.1 == k then (k, v) :: rest else kv :: setattr rest k v

/-- The `for key, value in payload.dict().items(): setattr(obj, key, value)`
loop of the store's update functions. -/
def setattrs (o : Obj) (payload : Obj) : Obj :=
  payload.foldl (fun acc kv => setattr acc kv.1 kv.2) o

/-- An `Optional[str]` attribute value. -/
def optStrV : Option String → Value
  | some s => Value.strV s
  | none => Value.noneV

/-- An `Optional[int]` attribute value. -/
def optNatV : Option Nat → Value
  | some n => Value.natV n
  | none => Value.noneV

namespace DbOperator

/-- The `Staff.Staff_ID == staff_id` filter of `get_staff_member`.  The key
is `Option`-valued because the CLI patient update can forward a null staff
id; SQL `Staff_ID = NULL` matches no row. -/
def staffKey (staff_id : Option Nat) (s : Obj) : Bool :=
  match staff_id with
  | none => false
  | some k => getattr s "Staff_ID" == some (Value.natV k)

/-- `db_operator.get_staff_member`: first staff row with the given id. -/
def get_staff_member (staffs : List Obj) (staff_id : Option Nat) : Option Obj :=
  staffs.find? (staffKey staff_id)

/-- `db_operator.update_staff`: fetch the staff row and `setattr` every
key/value of the payload's dict onto it; `None` when the id matches no row. -/
def update_staff (staffs : List Obj) (staff_id : Option Nat) (payload : Obj) :
    List Obj × Option Obj :=
  match get_staff_member staffs staff_id with
  | none => (staffs, none)
  | some s =>
    let s2 := setattrs s payload
    (replaceFirst (staffKey staff_id) s2 staffs, some s2)

end DbOperator

namespace MainCli

/-- The `PatientBase` payload dict built by `main_cli.update_patient`, in
pydantic field order, with blank-keeps-prior already applied. -/
def patientPayload (patient : Patient) (nameInp recordInp phoneInp emailInp : String)
    (docIdInp staffIdInp : Option Nat) : Obj :=
  [("Patient_Name", Value.strV (pickStr nameInp patient.Patient_Name)),
   ("Patient_Records", Value.strV (pickStr recordInp patient.Patient_Records)),
   ("Phone_Num", optStrV (pickOptStr phoneInp patient.Phone_Num)),
   ("Email", Value.strV (pickStr emailInp patient.Email)),
   ("Doc_ID", optNatV (pickOpt docIdInp patient.Doc_ID)),
   ("Staff_ID", optNatV (pickOpt staffIdInp patient.Staff_ID))]

/-- `main_cli.update_patient`: fetches the patient row for the entered
patient id and reads the six fields with blank-keeps-prior — but then calls
`db_ops.update_staff(db_session, staff_id, PatientBase(**external_data))`,
so the values go to the staff row keyed by the entered-or-retained staff id
and the `Patients` table is never written. -/
def update_patient (patients : List Patient) (staffs : List Obj) (patient_id : Nat)
    (nameInp recordInp phoneInp emailInp : String) (docIdInp staffIdInp : Option Nat) :
    (List Patient × List Obj) × Option Obj :=
  match DbOperator.get_patient patients patient_id with
  | none => ((patients, staffs), none)
  | some patient =>
    let staff_id := pickOpt staffIdInp patient.Staff_ID
    let r := DbOperator.update_staff staffs staff_id
      (patientPayload patient nameInp recordInp phoneInp emailInp docIdInp staffIdInp)
    ((patients, r.1), r.2)

end MainCli

/-- A row of the projected prescription query of `get_prescriptions_by`. -/
structure PrescriptionRow where
  Prescription_ID : Nat
  Doc_Name : String
  Patient_Name : String
  Date_Issued : Timestamp
  Notes : Option String
  Medication_Name : String
  Dosage : String
  Frequency : String
  Duration : String
deriving Repr, DecidableEq

/-- The projection of one joined tuple onto the queried columns. -/
def mkPrescriptionRow (p : Prescription) (d : Doctor) (pat : Patient)
    (det : PrescriptionDetail) : PrescriptionRow :=
  ⟨p.Prescription_ID, d.Doc_Name, pat.Patient_Name, p.Date_Issued, p.Notes,
   det.Medication_Name, det.Dosage, det.Frequency, det.Duration⟩

/-- The `eval(searchby)` filter expression of `get_prescriptions_by`,
restricted to the filter strings the repository's callers actually pass. -/
def evalSearchby (searchby : String) (p : Prescription) (value : Nat) : Bool :=
  if searchby = "Prescription.Prescription_ID == value" then p.Prescription_ID == value
  else if searchby = "Prescription.Doctor_ID == value" then p.Doctor_ID == value
  else false

namespace DbOperator

/-- The three inner joins of `get_prescriptions_by`:
prescription-doctor, prescription-patient, prescription-detail. -/
def prescriptionJoin (prescriptions : List Prescription) (doctors : List Doctor)
    (patients : List Patient) (details : List PrescriptionDetail) :
    List (Prescription × Doctor × Patient × PrescriptionDetail) :=
  prescriptions.flatMap fun p =>
    (doctors.filter fun d => d.Doc_ID == p.Doctor_ID).flatMap fun d =>
      (patients.filter fun pat => pat.Patient_ID == p.Patient_ID).flatMap fun pat =>
        (details.filter fun det => det.Prescription_ID == p.Prescription_ID).map
          fun det => (p, d, pat, det)

/-- `db_operator.get_prescriptions_by`: join, filter by the `eval`-ed
search expression on the prescription, and project. -/
def get_prescriptions_by (prescriptions : List Prescription) (doctors : List Doctor)
    (patients : List Patient) (details : List PrescriptionDetail)
    (searchby : String) (value : Nat) : List PrescriptionRow :=
  ((prescriptionJoin prescriptions doctors patients details).filter
      fun t => evalSearchby searchby t.1 value).map
    fun t => mkPrescriptionRow t.1 t.2.1 t.2.2.1 t.2.2.2

end DbOperator

namespace MainCli

/-- `main_cli.list_prescription_by_patient_id`: passes the filter string
`Prescription.Doctor_ID == value` together with the entered patient id, so
the query compares `Doctor_ID`, not `Patient_ID`, to that id. -/
def list_prescription_by_patient_id (prescriptions : List Prescription)
    (doctors : List Doctor) (patients : List Patient)
    (details : List PrescriptionDetail) (patient_id : Nat) : List PrescriptionRow :=
  DbOperator.get_prescriptions_by prescriptions doctors patients details
    "Prescription.Doctor_ID == value" patient_id

end MainCli

theorem find?_sat (p : α → Bool) : ∀ (l : List α) (a : α), l.find? p = some a → p a = true := by
  intro l
  induction l with
  | nil => intro a h; simp [List.find?] at h
  | cons x xs ih =>
    intro a h
    by_cases hx : p x = true
    · simp [List.find?, hx] at h
      subst h; exact hx
    · simp only [Bool.not_eq_true] at hx
      simp [List.find?, hx] at h
      exact ih a h

theorem find?_replaceFirst (p : α → Bool) (b : α) (hb : p b = true) :
    ∀ (l : List α) (a : α), l.find? p = some a → (replaceFirst p b l).find? p = some b := by
  intro l
  induction l with
  | nil => intro a h; simp [List.find?] at h
  | cons x xs ih =>
    intro a h
    by_cases hx : p x = true
    · simp [replaceFirst, hx, List.find?, hb]
    · simp only [Bool.not_eq_true] at hx
      simp [replaceFirst, hx, List.find?] at h ⊢
      exact ih a h

theorem replaceFirst_self (p : α → Bool) :
    ∀ (l : List α) (a : α), l.find? p = some a → replaceFirst p a l = l := by
  intro l
  induction l with
  | nil => intro a h; simp [List.find?] at h
  | cons x xs ih =>
    intro a h
    by_cases hx : p x = true
    · simp [List.find?, hx] at h
      subst h
      simp [replaceFirst, hx]
    · simp only [Bool.not_eq_true] at hx
      simp [List.find?, hx] at h
      simp [replaceFirst, hx, ih a h]

theorem mem_replaceFirst (p : α → Bool) (b : α) :
    ∀ (l : List α) (x : α), x ∈ replaceFirst p b l → x = b ∨ x ∈ l := by
  intro l
  induction l with
  | nil => intro x h; simp [replaceFirst] at h
  | cons y ys ih =>
    intro x h
    by_cases hy : p y = true
    · simp [replaceFirst, hy] at h
      rcases h with h | h
      · exact Or.inl h
      · exact Or.inr (List.mem_cons_of_mem _ h)
    · simp only [Bool.not_eq_true] at hy
      simp [replaceFirst, hy] at h
      rcases h with h | h
      · exact Or.inr (by simp [h])
      · rcases ih x h with h2 | h2
        · exact Or.inl h2
        · exact Or.inr (List.mem_cons_of_mem _ h2)

theorem bedInv_occupied (bid wid pid : Nat) (t : Timestamp) :
    BedInv ⟨bid, wid, some pid, "Occupied", some t⟩ := by
  refine ⟨⟨fun _ => ⟨Option.some_ne_none _, Option.some_ne_none _⟩, fun _ => rfl⟩,
    ⟨fun h => absurd h (show ("Occupied" : String) ≠ "Available" by decide),
     fun h => absurd h.1 (Option.some_ne_none _)⟩⟩

theorem bedInv_available (bid wid : Nat) :
    BedInv ⟨bid, wid, none, "Available", none⟩ := by
  refine ⟨⟨fun h => absurd h (show ("Available" : String) ≠ "Occupied" by decide),
     fun h => absurd rfl h.1⟩,
    ⟨fun _ => ⟨rfl, rfl⟩, fun _ => rfl⟩⟩

theorem get_bed_assigne_bed (beds : List Bed) (bed_id patient_id : Nat)
    (now : Timestamp) (b : Bed) (h : DbOperator.get_bed beds bed_id = some b) :
    DbOperator.get_bed (MainCli.assigne_bed beds bed_id patient_id now) bed_id =
      some ⟨b.Bed_ID, b.Ward_ID, some patient_id, "Occupied", some now⟩ := by
  have hfind : beds.find? (fun x => x.Bed_ID == bed_id) = some b := h
  have hb : (b.Bed_ID == bed_id) = true :=
    find?_sat (fun x : Bed => x.Bed_ID == bed_id) beds b hfind
  simp only [MainCli.assigne_bed, DbOperator.update_bed, DbOperator.setBedFields, h]
  exact find?_replaceFirst (fun x : Bed => x.Bed_ID == bed_id)
    ⟨b.Bed_ID, b.Ward_ID, some patient_id, "Occupied", some now⟩ hb beds b hfind

theorem get_bed_release_bed (beds : List Bed) (bed_id : Nat) (b : Bed)
    (h : DbOperator.get_bed beds bed_id = some b) :
    DbOperator.get_bed (MainCli.release_bed beds bed_id) bed_id =
      some ⟨b.Bed_ID, b.Ward_ID, none, "Available", none⟩ := by
  have hfind : beds.find? (fun x => x.Bed_ID == bed_id) = some b := h
  have hb : (b.Bed_ID == bed_id) = true :=
    find?_sat (fun x : Bed => x.Bed_ID == bed_id) beds b hfind
  simp only [MainCli.release_bed, DbOperator.update_bed, DbOperator.setBedFields, h]
  exact find?_replaceFirst (fun x : Bed => x.Bed_ID == bed_id)
    ⟨b.Bed_ID, b.Ward_ID, none, "Available", none⟩ hb beds b hfind

theorem release_bed_noop (l : List Bed) (id : Nat) (r : Bed)
    (h1 : DbOperator.get_bed l id = some r)
    (hpid : r.Patient_ID = none) (hstat : r.Status = "Available")
    (hdate : r.Assigned_Date = none) :
    MainCli.release_bed l id = l := by
  simp only [MainCli.release_bed, DbOperator.update_bed, DbOperator.setBedFields, h1]
  have h2 : (⟨r.Bed_ID, r.Ward_ID, none, "Available", none⟩ : Bed) = r := by
    cases r
    simp_all
  rw [h2]
  exact replaceFirst_self _ _ _ h1

theorem bedInv_applyBedOp (beds : List Bed) (op : BedOp)
    (h : ∀ b ∈ beds, BedInv b) : ∀ b ∈ applyBedOp beds op, BedInv b := by
  cases op with
  | assign bed_id patient_id now =>
    intro b hb
    cases hfind : DbOperator.get_bed beds bed_id with
    | none =>
      simp only [applyBedOp, MainCli.assigne_bed, hfind] at hb
      exact h b hb
    | some bed =>
      simp only [applyBedOp, MainCli.assigne_bed, DbOperator.update_bed,
        DbOperator.setBedFields, hfind] at hb
      rcases mem_replaceFirst _ _ _ _ hb with rfl | hmem
      · exact bedInv_occupied _ _ _ _
      · exact h b hmem
  | release bed_id =>
    intro b hb
    cases hfind : DbOperator.get_bed beds bed_id with
    | none =>
      simp only [applyBedOp, MainCli.release_bed, hfind] at hb
      exact h b hb
    | some bed =>
      simp only [applyBedOp, MainCli.release_bed, DbOperator.update_bed,
        DbOperator.setBedFields, hfind] at hb
      rcases mem_replaceFirst _ _ _ _ hb with rfl | hmem
      · exact bedInv_available _ _
      · exact h b hmem

/-- Claim C1, counterexample: on a bed already `Occupied` (by patient 2),
the code's `assigne_bed` does not fail and does not leave the bed record
unchanged — it overwrites the row, contrary to the claimed
`InvalidState` failure. -/
theorem C1_counterexample :
    MainCli.assigne_bed [⟨1, 1, some 2, "Occupied", some 10⟩] 1 3 20 ≠
      [⟨1, 1, some 2, "Occupied", some 10⟩] := by decide

/-- Claim C1 (amended): for every bed whose `Status` is `Occupied`, the
bed-assignment operation does not fail: `assigne_bed` performs no state
check and overwrites the bed record with `Status` `Occupied`, `Patient_ID`
the newly entered patient id, and `Assigned_Date` the current time. -/
theorem C1_assign_occupied_overwrites (beds : List Bed) (bed_id patient_id : Nat)
    (now : Timestamp) (b : Bed)
    (hfound : DbOperator.get_bed beds bed_id = some b)
    (hocc : b.Status = "Occupied") :
    DbOperator.get_bed (MainCli.assigne_bed beds bed_id patient_id now) bed_id =
      some ⟨b.Bed_ID, b.Ward_ID, some patient_id, "Occupied", some now⟩ :=
  get_bed_assigne_bed beds bed_id patient_id now b hfound

/-- Witness for the amended claim C1 at a concrete occupied bed. -/
theorem C1_witness :
    DbOperator.get_bed [⟨1, 1, some 2, "Occupied", some 10⟩] 1 =
        some ⟨1, 1, some 2, "Occupied", some 10⟩ ∧
      ((⟨1, 1, some 2, "Occupied", some 10⟩ : Bed).Status = "Occupied") ∧
      DbOperator.get_bed (MainCli.assigne_bed [⟨1, 1, some 2, "Occupied", some 10⟩] 1 3 20) 1 =
        some ⟨1, 1, some 3, "Occupied", some 20⟩ :=
  ⟨by decide, by decide,
    C1_assign_occupied_overwrites [⟨1, 1, some 2, "Occupied", some 10⟩] 1 3 20
      ⟨1, 1, some 2, "Occupied", some 10⟩ (by decide) (by decide)⟩

/-- Claim C2, counterexample: with an empty `Patients` table (so patient 7
does not exist), `assigne_bed` does not fail with `InvalidReference` and the
bed state is not unchanged — the bed is overwritten with the dangling id. -/
theorem C2_counterexample :
    DbOperator.get_patient ([] : List Patient) 7 = none ∧
      MainCli.assigne_bed [⟨2, 4, none, "Available", none⟩] 2 7 5 ≠
        [⟨2, 4, none, "Available", none⟩] := ⟨by decide, by decide⟩

/-- Claim C2 (amended): for every bed and every patient id that names no
existing `Patient`, `assigne_bed` performs no referential check: it consults
no patient table at all, succeeds, and overwrites the bed with the dangling
patient id, `Status` `Occupied` and the current time. -/
theorem C2_assign_no_patient_check (patients : List Patient) (beds : List Bed)
    (bed_id patient_id : Nat) (now : Timestamp) (b : Bed)
    (hfound : DbOperator.get_bed beds bed_id = some b)
    (hnopat : DbOperator.get_patient patients patient_id = none) :
    DbOperator.get_bed (MainCli.assigne_bed beds bed_id patient_id now) bed_id =
      some ⟨b.Bed_ID, b.Ward_ID, some patient_id, "Occupied", some now⟩ :=
  get_bed_assigne_bed beds bed_id patient_id now b hfound

/-- Witness for the amended claim C2 at a concrete bed and missing patient. -/
theorem C2_witness :
    DbOperator.get_bed [⟨2, 4, none, "Available", none⟩] 2 =
        some ⟨2, 4, none, "Available", none⟩ ∧
      DbOperator.get_patient ([] : List Patient) 7 = none ∧
      DbOperator.get_bed (MainCli.assigne_bed [⟨2, 4, none, "Available", none⟩] 2 7 5) 2 =
        some ⟨2, 4, some 7, "Occupied", some 5⟩ :=
  ⟨by decide, by decide,
    C2_assign_no_patient_check [] [⟨2, 4, none, "Available", none⟩] 2 7 5
      ⟨2, 4, none, "Available", none⟩ (by decide) (by decide)⟩

/-- Claim C3: if every bed satisfies the state invariant (`Occupied` iff
patient id and assigned date are set, `Available` iff both are null), then
after every sequence of `assigne_bed` / `release_bed` operations every bed
still satisfies it. -/
theorem C3_bed_invariant (ops : List BedOp) (beds : List Bed)
    (h : ∀ b ∈ beds, BedInv b) :
    ∀ b ∈ applyBedOps beds ops, BedInv b := by
  induction ops generalizing beds with
  | nil => simpa [applyBedOps] using h
  | cons op rest ih =>
    intro b hb
    simp only [applyBedOps, List.foldl_cons] at hb
    exact ih (applyBedOp beds op) (bedInv_applyBedOp beds op h) b hb

/-- Witness for claim C3: a concrete assign-then-release run preserves the
invariant on the resulting bed. -/
theorem C3_witness : BedInv ⟨1, 1, some 2, "Occupied", some 5⟩ :=
  C3_bed_invariant [BedOp.assign 1 2 5] [⟨1, 1, none, "Available", none⟩]
    (by decide) ⟨1, 1, some 2, "Occupied", some 5⟩ (by decide)

/-- Claim C4: for every existing bed, regardless of its status,
`release_bed` succeeds and leaves the bed `Available` with null patient id
and null assigned date, and releasing twice gives the same final state as
releasing once. -/
theorem C4_release_bed (beds : List Bed) (bed_id : Nat) (b : Bed)
    (h : DbOperator.get_bed beds bed_id = some b) :
    DbOperator.get_bed (MainCli.release_bed beds bed_id) bed_id =
        some ⟨b.Bed_ID, b.Ward_ID, none, "Available", none⟩ ∧
      MainCli.release_bed (MainCli.release_bed beds bed_id) bed_id =
        MainCli.release_bed beds bed_id := by
  have h1 := get_bed_release_bed beds bed_id b h
  exact ⟨h1, release_bed_noop _ _ _ h1 rfl rfl rfl⟩

/-- Witness for claim C4 at a concrete occupied bed. -/
theorem C4_witness :
    DbOperator.get_bed [⟨3, 2, some 5, "Occupied", some 9⟩] 3 =
        some ⟨3, 2, some 5, "Occupied", some 9⟩ ∧
      (DbOperator.get_bed (MainCli.release_bed [⟨3, 2, some 5, "Occupied", some 9⟩] 3) 3 =
          some ⟨3, 2, none, "Available", none⟩ ∧
        MainCli.release_bed (MainCli.release_bed [⟨3, 2, some 5, "Occupied", some 9⟩] 3) 3 =
          MainCli.release_bed [⟨3, 2, some 5, "Occupied", some 9⟩] 3) :=
  ⟨by decide,
    C4_release_bed [⟨3, 2, some 5, "Occupied", some 9⟩] 3
      ⟨3, 2, some 5, "Occupied", some 9⟩ (by decide)⟩

/-- Claim C5: for every existing doctor, creating an open appointment yields
a row with null `Patient_ID`, `Statusof` forced to `0` (Open), and
`Speciality` copied from the referenced doctor at creation time. -/
theorem C5_create_open_appointment (doctors : List Doctor)
    (appointments : List Appointment) (doc_id : Nat) (appo_date : Timestamp)
    (doctor : Doctor) (h : DbOperator.get_doctor doctors doc_id = some doctor) :
    MainCli.create_open_appointment doctors appointments doc_id appo_date =
      (appointments ++ [⟨DbOperator.nextAppointmentId appointments, none, doc_id,
          appo_date, some 0, none, doctor.Speciality, none⟩],
        some ⟨DbOperator.nextAppointmentId appointments, none, doc_id,
          appo_date, some 0, none, doctor.Speciality, none⟩) := by
  simp only [MainCli.create_open_appointment, DbOperator.create_appointment, h]

/-- Witness for claim C5 at a concrete doctor. -/
theorem C5_witness :
    DbOperator.get_doctor [⟨1, "Ann", "Cardiology", none, "ann@hospital"⟩] 1 =
        some ⟨1, "Ann", "Cardiology", none, "ann@hospital"⟩ ∧
      MainCli.create_open_appointment [⟨1, "Ann", "Cardiology", none, "ann@hospital"⟩] [] 1 3 =
        ([⟨1, none, 1, 3, some 0, none, "Cardiology", none⟩],
          some ⟨1, none, 1, 3, some 0, none, "Cardiology", none⟩) :=
  ⟨by decide,
    C5_create_open_appointment [⟨1, "Ann", "Cardiology", none, "ann@hospital"⟩] [] 1 3
      ⟨1, "Ann", "Cardiology", none, "ann@hospital"⟩ (by decide)⟩

/-- Claim C6: for every existing appointment, the CLI update writes back the
`Speciality` stored in the existing row — the operation consults no doctor
table, so the specialty is never recomputed from the (possibly changed)
doctor id. -/
theorem C6_update_appointment_speciality (appointments : List Appointment)
    (appointment_id : Nat) (docIdInp patientIdInp : Option Nat)
    (dateInp : Option Timestamp) (status : Nat) (typeof : String)
    (noteInp : Option String) (a : Appointment)
    (h : DbOperator.get_appointment appointments appointment_id = some a) :
    (MainCli.update_appointment appointments appointment_id docIdInp patientIdInp
        dateInp status typeof noteInp).2 =
      some ⟨a.Appointment_ID, MainCli.pickOpt patientIdInp a.Patient_ID,
        MainCli.pick docIdInp a.Doc_ID, MainCli.pick dateInp a.Appointment_Date,
        some status, some typeof, a.Speciality, MainCli.pickOpt noteInp a.Notes⟩ ∧
    DbOperator.get_appointment
        (MainCli.update_appointment appointments appointment_id docIdInp patientIdInp
          dateInp status typeof noteInp).1 appointment_id =
      some ⟨a.Appointment_ID, MainCli.pickOpt patientIdInp a.Patient_ID,
        MainCli.pick docIdInp a.Doc_ID, MainCli.pick dateInp a.Appointment_Date,
        some status, some typeof, a.Speciality, MainCli.pickOpt noteInp a.Notes⟩ := by
  have hfind : appointments.find? (fun x => x.Appointment_ID == appointment_id) = some a := h
  have ha : (a.Appointment_ID == appointment_id) = true :=
    find?_sat (fun x : Appointment => x.Appointment_ID == appointment_id) _ _ hfind
  constructor
  · simp only [MainCli.update_appointment, DbOperator.update_appointment, h]
  · simp only [MainCli.update_appointment, DbOperator.update_appointment, h]
    exact find?_replaceFirst (fun x : Appointment => x.Appointment_ID == appointment_id)
      ⟨a.Appointment_ID, MainCli.pickOpt patientIdInp a.Patient_ID,
        MainCli.pick docIdInp a.Doc_ID, MainCli.pick dateInp a.Appointment_Date,
        some status, some typeof, a.Speciality, MainCli.pickOpt noteInp a.Notes⟩
      ha _ _ hfind

/-- Witness for claim C6: the doctor id is updated (to 9) yet the stored
specialty stays the originally copied value. -/
theorem C6_witness :
    DbOperator.get_appointment [⟨1, some 2, 1, 5, some 1, some "Online", "Cardiology", none⟩] 1 =
        some ⟨1, some 2, 1, 5, some 1, some "Online", "Cardiology", none⟩ ∧
      ((MainCli.update_appointment [⟨1, some 2, 1, 5, some 1, some "Online", "Cardiology", none⟩]
            1 (some 9) (some 5) none 1 "Inperson" none).2 =
          some ⟨1, some 5, 9, 5, some 1, some "Inperson", "Cardiology", none⟩ ∧
        DbOperator.get_appointment
            (MainCli.update_appointment [⟨1, some 2, 1, 5, some 1, some "Online", "Cardiology", none⟩]
              1 (some 9) (some 5) none 1 "Inperson" none).1 1 =
          some ⟨1, some 5, 9, 5, some 1, some "Inperson", "Cardiology", none⟩) :=
  ⟨by decide,
    C6_update_appointment_speciality
      [⟨1, some 2, 1, 5, some 1, some "Online", "Cardiology", none⟩] 1
      (some 9) (some 5) none 1 "Inperson" none
      ⟨1, some 2, 1, 5, some 1, some "Online", "Cardiology", none⟩ (by decide)⟩

/-- Claim C7: partial update — a blank field keeps the prior value, a
supplied field takes the supplied value and the primary key is preserved
(shown for the doctor update and the staff-shift update, the claim's cited
operations), and an update addressed to an id that names no record returns
`None` with the table untouched. -/
theorem C7_partial_update (doctors doctorsB : List Doctor) (doctor_id doctor_idB : Nat)
    (nameInp phoneInp specialityInp emailInp : String) (pB : DoctorBase)
    (shifts : List StaffShift) (shift_id : Nat)
    (staffIdInp : Option Nat) (startInp endInp : Option Timestamp)
    (d : Doctor) (s : StaffShift)
    (hd : DbOperator.get_doctor doctors doctor_id = some d)
    (hnone : DbOperator.get_doctor doctorsB doctor_idB = none)
    (hs : DbOperator.get_staff_shift shifts shift_id = some s) :
    ((MainCli.update_doctor doctors doctor_id nameInp phoneInp specialityInp emailInp).2 =
        some ⟨d.Doc_ID, MainCli.pickStr nameInp d.Doc_Name,
          MainCli.pickStr specialityInp d.Speciality,
          MainCli.pickOptStr phoneInp d.Phone_Num, MainCli.pickStr emailInp d.Email⟩ ∧
      DbOperator.get_doctor
          (MainCli.update_doctor doctors doctor_id nameInp phoneInp specialityInp emailInp).1
          doctor_id =
        some ⟨d.Doc_ID, MainCli.pickStr nameInp d.Doc_Name,
          MainCli.pickStr specialityInp d.Speciality,
          MainCli.pickOptStr phoneInp d.Phone_Num, MainCli.pickStr emailInp d.Email⟩) ∧
    DbOperator.update_doctor doctorsB doctor_idB pB = (doctorsB, none) ∧
    ((MainCli.update_staff_shift shifts shift_id staffIdInp startInp endInp).2 =
        some ⟨s.Shift_ID, MainCli.pick staffIdInp s.Staff_ID,
          MainCli.pick startInp s.Shift_Start, MainCli.pick endInp s.Shift_End⟩ ∧
      DbOperator.get_staff_shift
          (MainCli.update_staff_shift shifts shift_id staffIdInp startInp endInp).1 shift_id =
        some ⟨s.Shift_ID, MainCli.pick staffIdInp s.Staff_ID,
          MainCli.pick startInp s.Shift_Start, MainCli.pick endInp s.Shift_End⟩) := by
  have hdfind : doctors.find? (fun x => x.Doc_ID == doctor_id) = some d := hd
  have hdid : (d.Doc_ID == doctor_id) = true :=
    find?_sat (fun x : Doctor => x.Doc_ID == doctor_id) _ _ hdfind
  have hsfind : shifts.find? (fun x => x.Shift_ID == shift_id) = some s := hs
  have hsid : (s.Shift_ID == shift_id) = true :=
    find?_sat (fun x : StaffShift => x.Shift_ID == shift_id) _ _ hsfind
  refine ⟨⟨?_, ?_⟩, ?_, ?_, ?_⟩
  · simp only [MainCli.update_doctor, DbOperator.update_doctor, hd]
  · simp only [MainCli.update_doctor, DbOperator.update_doctor, hd]
    exact find?_replaceFirst (fun x : Doctor => x.Doc_ID == doctor_id)
      ⟨d.Doc_ID, MainCli.pickStr nameInp d.Doc_Name,
        MainCli.pickStr specialityInp d.Speciality,
        MainCli.pickOptStr phoneInp d.Phone_Num, MainCli.pickStr emailInp d.Email⟩
      hdid _ _ hdfind
  · simp only [DbOperator.update_doctor, hnone]
  · simp only [MainCli.update_staff_shift, DbOperator.update_staff_shift, hs]
  · simp only [MainCli.update_staff_shift, DbOperator.update_staff_shift, hs]
    exact find?_replaceFirst (fun x : StaffShift => x.Shift_ID == shift_id)
      ⟨s.Shift_ID, MainCli.pick staffIdInp s.Staff_ID,
        MainCli.pick startInp s.Shift_Start, MainCli.pick endInp s.Shift_End⟩
      hsid _ _ hsfind

/-- Witness for claim C7: blank name keeps "Bob", supplied phone replaces
the old one; update of absent doctor 9 is a no-op returning `None`; blank
shift fields keep prior values while the entered end time is written. -/
theorem C7_witness :
    ((MainCli.update_doctor [⟨1, "Bob", "Surgery", some "111", "bob@h"⟩] 1 "" "222" "" "").2 =
        some ⟨1, "Bob", "Surgery", some "222", "bob@h"⟩ ∧
      DbOperator.get_doctor
          (MainCli.update_doctor [⟨1, "Bob", "Surgery", some "111", "bob@h"⟩] 1 "" "222" "" "").1 1 =
        some ⟨1, "Bob", "Surgery", some "222", "bob@h"⟩) ∧
    DbOperator.update_doctor [⟨1, "Bob", "Surgery", some "111", "bob@h"⟩] 9
        ⟨"X", "Y", none, "Z"⟩ =
      ([⟨1, "Bob", "Surgery", some "111", "bob@h"⟩], none) ∧
    ((MainCli.update_staff_shift [⟨4, 2, 10, 18⟩] 4 none none (some 20)).2 =
        some ⟨4, 2, 10, 20⟩ ∧
      DbOperator.get_staff_shift
          (MainCli.update_staff_shift [⟨4, 2, 10, 18⟩] 4 none none (some 20)).1 4 =
        some ⟨4, 2, 10, 20⟩) :=
  C7_partial_update [⟨1, "Bob", "Surgery", some "111", "bob@h"⟩]
    [⟨1, "Bob", "Surgery", some "111", "bob@h"⟩] 1 9 "" "222" "" ""
    ⟨"X", "Y", none, "Z"⟩ [⟨4, 2, 10, 18⟩] 4 none none (some 20)
    ⟨1, "Bob", "Surgery", some "111", "bob@h"⟩ ⟨4, 2, 10, 18⟩
    (by decide) (by decide) (by decide)

theorem mark_notification_step (l : List Notification) (notification_id : Nat)
    (t : Timestamp) (m : Notification)
    (hl : DbOperator.findNotification l notification_id = some m) :
    (DbOperator.mark_notification_as_read l notification_id t).2 =
        some { m with Status := "Read", Read_At := some t } ∧
      DbOperator.findNotification
          (DbOperator.mark_notification_as_read l notification_id t).1 notification_id =
        some { m with Status := "Read", Read_At := some t } := by
  have hfind : l.find? (fun x => x.Notification_ID == notification_id) = some m := hl
  have hm : (m.Notification_ID == notification_id) = true :=
    find?_sat (fun x : Notification => x.Notification_ID == notification_id) _ _ hfind
  constructor
  · simp only [DbOperator.mark_notification_as_read, DbOperator.findNotification, hfind]
  · simp only [DbOperator.mark_notification_as_read, DbOperator.findNotification, hfind]
    exact find?_replaceFirst (fun x : Notification => x.Notification_ID == notification_id)
      { m with Status := "Read", Read_At := some t } hm _ _ hfind

/-- Claim C8: marking an existing notification read succeeds, sets `Status`
to `Read` and `Read_At` to the current time; a second mark on the already
read notification also succeeds, keeps `Status` `Read` and overwrites
`Read_At` with the newer timestamp. -/
theorem C8_mark_read_idempotent (notifications : List Notification)
    (notification_id : Nat) (t1 t2 : Timestamp) (n : Notification)
    (h : DbOperator.findNotification notifications notification_id = some n) :
    (DbOperator.mark_notification_as_read notifications notification_id t1).2 =
        some { n with Status := "Read", Read_At := some t1 } ∧
      (DbOperator.mark_notification_as_read
          (DbOperator.mark_notification_as_read notifications notification_id t1).1
          notification_id t2).2 =
        some { n with Status := "Read", Read_At := some t2 } ∧
      DbOperator.findNotification
          (DbOperator.mark_notification_as_read
            (DbOperator.mark_notification_as_read notifications notification_id t1).1
            notification_id t2).1 notification_id =
        some { n with Status := "Read", Read_At := some t2 } := by
  have s1 := mark_notification_step notifications notification_id t1 n h
  have s2 := mark_notification_step
    (DbOperator.mark_notification_as_read notifications notification_id t1).1
    notification_id t2 { n with Status := "Read", Read_At := some t1 } s1.2
  exact ⟨s1.1, s2.1, s2.2⟩

/-- Witness for claim C8 on a freshly created notification, marked read at
time 7 and re-marked at time 9. -/
theorem C8_witness :
    DbOperator.findNotification
        (DbOperator.create_notification [] ⟨"Patient", 5, "msg"⟩ 4).1 1 =
      some ⟨1, "Patient", 5, "msg", "Unread", 4, none⟩ ∧
    ((DbOperator.mark_notification_as_read
          (DbOperator.create_notification [] ⟨"Patient", 5, "msg"⟩ 4).1 1 7).2 =
        some ⟨1, "Patient", 5, "msg", "Read", 4, some 7⟩ ∧
      (DbOperator.mark_notification_as_read
          (DbOperator.mark_notification_as_read
            (DbOperator.create_notification [] ⟨"Patient", 5, "msg"⟩ 4).1 1 7).1 1 9).2 =
        some ⟨1, "Patient", 5, "msg", "Read", 4, some 9⟩ ∧
      DbOperator.findNotification
          (DbOperator.mark_notification_as_read
            (DbOperator.mark_notification_as_read
              (DbOperator.create_notification [] ⟨"Patient", 5, "msg"⟩ 4).1 1 7).1 1 9).1 1 =
        some ⟨1, "Patient", 5, "msg", "Read", 4, some 9⟩) :=
  ⟨by decide,
    C8_mark_read_idempotent (DbOperator.create_notification [] ⟨"Patient", 5, "msg"⟩ 4).1
      1 7 9 ⟨1, "Patient", 5, "msg", "Unread", 4, none⟩ (by decide)⟩

theorem getattr_setattr_same (o : Obj) (k : String) (v : Value) :
    getattr (setattr o k v) k = some v := by
  induction o with
  | nil => simp [setattr, getattr, List.find?]
  | cons kv rest ih =>
    by_cases hk : (kv.1 == k) = true
    · simp [setattr, hk, getattr, List.find?]
    · simp only [Bool.not_eq_true] at hk
      simpa [setattr, hk, getattr, List.find?] using ih

theorem getattr_setattr_ne (k2 k : String) (v : Value) (hne : (k2 == k) = false) :
    ∀ o : Obj, getattr (setattr o k2 v) k = getattr o k := by
  intro o
  induction o with
  | nil => simp [setattr, getattr, List.find?, hne]
  | cons kv rest ih =>
    by_cases hk : (kv.1 == k2) = true
    · have hkv : kv.1 = k2 := eq_of_beq hk
      simp [setattr, hk, getattr, List.find?, hkv, hne]
    · simp only [Bool.not_eq_true] at hk
      by_cases hkk : (kv.1 == k) = true
      · simp [setattr, hk, getattr, List.find?, hkk]
      · simp only [Bool.not_eq_true] at hkk
        simpa [setattr, hk, getattr, List.find?, hkk] using ih

/-- Claim C9: the CLI patient-update flow leaves the `Patients` table
unchanged; the entered (or retained) field values are written, through the
staff-update store operation, onto the `Staff` row keyed by the entered (or
retained) staff id. -/
theorem C9_update_patient_writes_staff (patients : List Patient) (staffs : List Obj)
    (patient_id : Nat) (nameInp recordInp phoneInp emailInp : String)
    (docIdInp staffIdInp : Option Nat) (patient : Patient) (srow : Obj)
    (hpat : DbOperator.get_patient patients patient_id = some patient)
    (hstaff : DbOperator.get_staff_member staffs
        (MainCli.pickOpt staffIdInp patient.Staff_ID) = some srow) :
    (MainCli.update_patient patients staffs patient_id nameInp recordInp phoneInp
        emailInp docIdInp staffIdInp).1.1 = patients ∧
    (MainCli.update_patient patients staffs patient_id nameInp recordInp phoneInp
        emailInp docIdInp staffIdInp).2 =
      some (setattrs srow (MainCli.patientPayload patient nameInp recordInp phoneInp
        emailInp docIdInp staffIdInp)) ∧
    DbOperator.get_staff_member
        (MainCli.update_patient patients staffs patient_id nameInp recordInp phoneInp
          emailInp docIdInp staffIdInp).1.2
        (MainCli.pickOpt staffIdInp patient.Staff_ID) =
      some (setattrs srow (MainCli.patientPayload patient nameInp recordInp phoneInp
        emailInp docIdInp staffIdInp)) ∧
    getattr (setattrs srow (MainCli.patientPayload patient nameInp recordInp phoneInp
        emailInp docIdInp staffIdInp)) "Patient_Name" =
      some (Value.strV (MainCli.pickStr nameInp patient.Patient_Name)) ∧
    getattr (setattrs srow (MainCli.patientPayload patient nameInp recordInp phoneInp
        emailInp docIdInp staffIdInp)) "Patient_Records" =
      some (Value.strV (MainCli.pickStr recordInp patient.Patient_Records)) ∧
    getattr (setattrs srow (MainCli.patientPayload patient nameInp recordInp phoneInp
        emailInp docIdInp staffIdInp)) "Phone_Num" =
      some (optStrV (MainCli.pickOptStr phoneInp patient.Phone_Num)) ∧
    getattr (setattrs srow (MainCli.patientPayload patient nameInp recordInp phoneInp
        emailInp docIdInp staffIdInp)) "Email" =
      some (Value.strV (MainCli.pickStr emailInp patient.Email)) ∧
    getattr (setattrs srow (MainCli.patientPayload patient nameInp recordInp phoneInp
        emailInp docIdInp staffIdInp)) "Doc_ID" =
      some (optNatV (MainCli.pickOpt docIdInp patient.Doc_ID)) ∧
    getattr (setattrs srow (MainCli.patientPayload patient nameInp recordInp phoneInp
        emailInp docIdInp staffIdInp)) "Staff_ID" =
      some (optNatV (MainCli.pickOpt staffIdInp patient.Staff_ID)) := by
  have hstafffind : staffs.find?
      (DbOperator.staffKey (MainCli.pickOpt staffIdInp patient.Staff_ID)) = some srow := hstaff
  have hs2id : getattr (setattrs srow (MainCli.patientPayload patient nameInp recordInp
      phoneInp emailInp docIdInp staffIdInp)) "Staff_ID" =
      some (optNatV (MainCli.pickOpt staffIdInp patient.Staff_ID)) := by
    simp only [MainCli.patientPayload, setattrs, List.foldl]
    exact getattr_setattr_same _ _ _
  have hkeymatch : DbOperator.staffKey (MainCli.pickOpt staffIdInp patient.Staff_ID)
      (setattrs srow (MainCli.patientPayload patient nameInp recordInp phoneInp emailInp
        docIdInp staffIdInp)) = true := by
    cases hkey : MainCli.pickOpt staffIdInp patient.Staff_ID with
    | none =>
      exfalso
      rw [hkey] at hstafffind
      have hfalse := find?_sat (DbOperator.staffKey none) staffs srow hstafffind
      simp [DbOperator.staffKey] at hfalse
    | some k =>
      rw [hkey] at hs2id
      simp [DbOperator.staffKey, hs2id, optNatV]
  refine ⟨?_, ?_, ?_, ?_, ?_, ?_, ?_, ?_, hs2id⟩
  · simp only [MainCli.update_patient, DbOperator.update_staff, hpat, hstaff]
  · simp only [MainCli.update_patient, DbOperator.update_staff, hpat, hstaff]
  · simp only [MainCli.update_patient, DbOperator.update_staff, DbOperator.get_staff_member,
      hpat, hstafffind]
    exact find?_replaceFirst (DbOperator.staffKey (MainCli.pickOpt staffIdInp patient.Staff_ID))
      (setattrs srow (MainCli.patientPayload patient nameInp recordInp phoneInp emailInp
        docIdInp staffIdInp)) hkeymatch staffs srow hstafffind
  · simp only [MainCli.patientPayload, setattrs, List.foldl]
    rw [getattr_setattr_ne "Staff_ID" "Patient_Name" _ (by decide)]
    rw [getattr_setattr_ne "Doc_ID" "Patient_Name" _ (by decide)]
    rw [getattr_setattr_ne "Email" "Patient_Name" _ (by decide)]
    rw [getattr_setattr_ne "Phone_Num" "Patient_Name" _ (by decide)]
    rw [getattr_setattr_ne "Patient_Records" "Patient_Name" _ (by decide)]
    exact getattr_setattr_same _ _ _
  · simp only [MainCli.patientPayload, setattrs, List.foldl]
    rw [getattr_setattr_ne "Staff_ID" "Patient_Records" _ (by decide)]
    rw [getattr_setattr_ne "Doc_ID" "Patient_Records" _ (by decide)]
    rw [getattr_setattr_ne "Email" "Patient_Records" _ (by decide)]
    rw [getattr_setattr_ne "Phone_Num" "Patient_Records" _ (by decide)]
    exact getattr_setattr_same _ _ _
  · simp only [MainCli.patientPayload, setattrs, List.foldl]
    rw [getattr_setattr_ne "Staff_ID" "Phone_Num" _ (by decide)]
    rw [getattr_setattr_ne "Doc_ID" "Phone_Num" _ (by decide)]
    rw [getattr_setattr_ne "Email" "Phone_Num" _ (by decide)]
    exact getattr_setattr_same _ _ _
  · simp only [MainCli.patientPayload, setattrs, List.foldl]
    rw [getattr_setattr_ne "Staff_ID" "Email" _ (by decide)]
    rw [getattr_setattr_ne "Doc_ID" "Email" _ (by decide)]
    exact getattr_setattr_same _ _ _
  · simp only [MainCli.patientPayload, setattrs, List.foldl]
    rw [getattr_setattr_ne "Staff_ID" "Doc_ID" _ (by decide)]
    exact getattr_setattr_same _ _ _

/-- Witness for claim C9: patient 1 is updated through the CLI, the patient
row is untouched and staff row 3 receives the entered values. -/
theorem C9_witness :
    (MainCli.update_patient [⟨1, "Joe", "rec", none, "j@h", some 2, some 3⟩]
        [[("Staff_ID", Value.natV 3), ("Name", Value.strV "Sam")]]
        1 "NewName" "" "" "" none none).1.1 =
      [⟨1, "Joe", "rec", none, "j@h", some 2, some 3⟩] ∧
    (MainCli.update_patient [⟨1, "Joe", "rec", none, "j@h", some 2, some 3⟩]
        [[("Staff_ID", Value.natV 3), ("Name", Value.strV "Sam")]]
        1 "NewName" "" "" "" none none).2 =
      some (setattrs [("Staff_ID", Value.natV 3), ("Name", Value.strV "Sam")]
        (MainCli.patientPayload ⟨1, "Joe", "rec", none, "j@h", some 2, some 3⟩
          "NewName" "" "" "" none none)) ∧
    DbOperator.get_staff_member
        (MainCli.update_patient [⟨1, "Joe", "rec", none, "j@h", some 2, some 3⟩]
          [[("Staff_ID", Value.natV 3), ("Name", Value.strV "Sam")]]
          1 "NewName" "" "" "" none none).1.2 (some 3) =
      some (setattrs [("Staff_ID", Value.natV 3), ("Name", Value.strV "Sam")]
        (MainCli.patientPayload ⟨1, "Joe", "rec", none, "j@h", some 2, some 3⟩
          "NewName" "" "" "" none none)) ∧
    getattr (setattrs [("Staff_ID", Value.natV 3), ("Name", Value.strV "Sam")]
        (MainCli.patientPayload ⟨1, "Joe", "rec", none, "j@h", some 2, some 3⟩
          "NewName" "" "" "" none none)) "Patient_Name" =
      some (Value.strV "NewName") ∧
    getattr (setattrs [("Staff_ID", Value.natV 3), ("Name", Value.strV "Sam")]
        (MainCli.patientPayload ⟨1, "Joe", "rec", none, "j@h", some 2, some 3⟩
          "NewName" "" "" "" none none)) "Patient_Records" =
      some (Value.strV "rec") ∧
    getattr (setattrs [("Staff_ID", Value.natV 3), ("Name", Value.strV "Sam")]
        (MainCli.patientPayload ⟨1, "Joe", "rec", none, "j@h", some 2, some 3⟩
          "NewName" "" "" "" none none)) "Phone_Num" =
      some Value.noneV ∧
    getattr (setattrs [("Staff_ID", Value.natV 3), ("Name", Value.strV "Sam")]
        (MainCli.patientPayload ⟨1, "Joe", "rec", none, "j@h", some 2, some 3⟩
          "NewName" "" "" "" none none)) "Email" =
      some (Value.strV "j@h") ∧
    getattr (setattrs [("Staff_ID", Value.natV 3), ("Name", Value.strV "Sam")]
        (MainCli.patientPayload ⟨1, "Joe", "rec", none, "j@h", some 2, some 3⟩
          "NewName" "" "" "" none none)) "Doc_ID" =
      some (Value.natV 2) ∧
    getattr (setattrs [("Staff_ID", Value.natV 3), ("Name", Value.strV "Sam")]
        (MainCli.patientPayload ⟨1, "Joe", "rec", none, "j@h", some 2, some 3⟩
          "NewName" "" "" "" none none)) "Staff_ID" =
      some (Value.natV 3) :=
  C9_update_patient_writes_staff [⟨1, "Joe", "rec", none, "j@h", some 2, some 3⟩]
    [[("Staff_ID", Value.natV 3), ("Name", Value.strV "Sam")]]
    1 "NewName" "" "" "" none none ⟨1, "Joe", "rec", none, "j@h", some 2, some 3⟩
    [("Staff_ID", Value.natV 3), ("Name", Value.strV "Sam")] (by decide) (by decide)

theorem evalSearchby_doctor (p : Prescription) (value : Nat) :
    evalSearchby "Prescription.Doctor_ID == value" p value = (p.Doctor_ID == value) := by
  simp only [evalSearchby]
  rw [if_neg (by decide)]
  simp

/-- Claim C10: the rows returned by the CLI list-prescriptions-by-patient
operation are exactly those join tuples whose prescription has `Doctor_ID`
equal to the entered patient id — the filter compares `Doctor_ID`, not
`Patient_ID`. -/
theorem C10_list_by_patient_filters_doctor (prescriptions : List Prescription)
    (doctors : List Doctor) (patients : List Patient)
    (details : List PrescriptionDetail) (patient_id : Nat) :
    (∀ row ∈ MainCli.list_prescription_by_patient_id prescriptions doctors patients
        details patient_id,
      ∃ p ∈ prescriptions, ∃ d ∈ doctors, ∃ pat ∈ patients, ∃ det ∈ details,
        d.Doc_ID = p.Doctor_ID ∧ pat.Patient_ID = p.Patient_ID ∧
        det.Prescription_ID = p.Prescription_ID ∧
        row = mkPrescriptionRow p d pat det ∧ p.Doctor_ID = patient_id) ∧
    (∀ p ∈ prescriptions, ∀ d ∈ doctors, ∀ pat ∈ patients, ∀ det ∈ details,
      d.Doc_ID = p.Doctor_ID → pat.Patient_ID = p.Patient_ID →
      det.Prescription_ID = p.Prescription_ID → p.Doctor_ID = patient_id →
      mkPrescriptionRow p d pat det ∈
        MainCli.list_prescription_by_patient_id prescriptions doctors patients
          details patient_id) := by
  constructor
  · intro row hrow
    simp only [MainCli.list_prescription_by_patient_id, DbOperator.get_prescriptions_by,
      List.mem_map, List.mem_filter] at hrow
    obtain ⟨t, ⟨htj, htf⟩, hteq⟩ := hrow
    simp only [DbOperator.prescriptionJoin, List.mem_flatMap, List.mem_filter,
      List.mem_map] at htj
    obtain ⟨p0, hp0, d0, ⟨hd0, hdid⟩, pat0, ⟨hpat0, hpid⟩, det0, ⟨hdet0, hdetid⟩, he⟩ := htj
    subst he
    rw [evalSearchby_doctor] at htf
    exact ⟨p0, hp0, d0, hd0, pat0, hpat0, det0, hdet0,
      eq_of_beq hdid, eq_of_beq hpid, eq_of_beq hdetid, hteq.symm,
      eq_of_beq htf⟩
  · intro p hp d hd pat hpat det hdet h1 h2 h3 h4
    simp only [MainCli.list_prescription_by_patient_id, DbOperator.get_prescriptions_by,
      List.mem_map, List.mem_filter]
    refine ⟨(p, d, pat, det), ⟨?_, ?_⟩, rfl⟩
    · simp only [DbOperator.prescriptionJoin, List.mem_flatMap, List.mem_filter,
        List.mem_map]
      exact ⟨p, hp, d, ⟨hd, by simp [h1]⟩, pat, ⟨hpat, by simp [h2]⟩, det,
        ⟨hdet, by simp [h3]⟩, rfl⟩
    · rw [evalSearchby_doctor]
      simp [h4]

/-- Witness for claim C10: with patient id 7, a returned row comes from the
prescription whose `Doctor_ID` is 7. -/
theorem C10_witness :
    ∃ p ∈ [(⟨1, 7, 7, 2, none⟩ : Prescription)],
      ∃ d ∈ [(⟨7, "Dan", "Oncology", none, "d@h"⟩ : Doctor)],
        ∃ pat ∈ [(⟨7, "Pam", "r", none, "p@h", none, none⟩ : Patient)],
          ∃ det ∈ [(⟨1, 1, "Med", "1x", "2d", "7d"⟩ : PrescriptionDetail)],
            d.Doc_ID = p.Doctor_ID ∧ pat.Patient_ID = p.Patient_ID ∧
            det.Prescription_ID = p.Prescription_ID ∧
            (⟨1, "Dan", "Pam", 2, none, "Med", "1x", "2d", "7d"⟩ : PrescriptionRow) =
              mkPrescriptionRow p d pat det ∧ p.Doctor_ID = 7 :=
  (C10_list_by_patient_filters_doctor [⟨1, 7, 7, 2, none⟩]
      [⟨7, "Dan", "Oncology", none, "d@h"⟩] [⟨7, "Pam", "r", none, "p@h", none, none⟩]
      [⟨1, 1, "Med", "1x", "2d", "7d"⟩] 7).1
    ⟨1, "Dan", "Pam", 2, none, "Med", "1x", "2d", "7d"⟩ (by decide)

end Hospital
